import Mathlib

/-!
Verification of `requests_pkcs12.py` against its specification.

The module wraps a PKCS#12 credential bundle for use with an HTTP client:
it decodes the bundle, checks certificate expiry, materializes the key and
certificate chain as a sequence of PEM blocks in a temporary file, loads
that file into a TLS context, and plugs the context into a transport
adapter that can suspend hostname verification per request.

External collaborators (the `cryptography` decoder, `ssl.load_cert_chain`,
the filesystem) are modelled as explicit parameters carrying their
outcome, so every control path of the Python source is represented.
-/

/-- A Python `datetime` value at second precision, the precision used by the
expiry error message's format string. -/
structure PyDateTime where
  year : Nat
  month : Nat
  day : Nat
  hour : Nat
  minute : Nat
  second : Nat
  deriving DecidableEq

/-- Strict comparison of two datetimes, lexicographic on
(year, month, day, hour, minute, second), as Python compares `datetime`
objects. -/
def PyDateTime.lt (a b : PyDateTime) : Bool :=
  decide (a.year < b.year ∨ (a.year = b.year ∧
    (a.month < b.month ∨ (a.month = b.month ∧
      (a.day < b.day ∨ (a.day = b.day ∧
        (a.hour < b.hour ∨ (a.hour = b.hour ∧
          (a.minute < b.minute ∨ (a.minute = b.minute ∧
            a.second < b.second))))))))))

/-- Left-pad the decimal representation of `n` with zeros to `width`
characters, as CPython's `strftime` pads `%Y`, `%m`, `%d`, `%H`, `%M`, `%S`. -/
def padTo (width : Nat) (n : Nat) : String :=
  let s := toString n
  String.mk (List.replicate (width - s.length) (Char.ofNat 48)) ++ s

/-- The timestamp rendering of the format string
`%Y-%m-%d %H:%M:%SZ` used in the expiry error message. -/
def strftimeNotAfter (d : PyDateTime) : String :=
  padTo 4 d.year ++ "-" ++ padTo 2 d.month ++ "-" ++ padTo 2 d.day ++ " " ++
    padTo 2 d.hour ++ ":" ++ padTo 2 d.minute ++ ":" ++ padTo 2 d.second ++ "Z"

/-- An X.509 certificate as far as this module inspects it: an identity
(serial) and its `not_valid_after` timestamp. -/
structure Cert where
  serial : Nat
  not_valid_after : PyDateTime
  deriving DecidableEq

/-- An opaque private-key handle returned by the PKCS#12 decoder. -/
structure PrivateKey where
  keyId : Nat
  deriving DecidableEq

/-- The Python exception taxonomy this module raises or propagates. -/
inductive PyErr where
  | valueError (msg : String)
  | typeError (msg : String)
  | sslError (msg : String)
  | osError (msg : String)
  deriving DecidableEq

/-- `check_cert_not_after(cert)` (source lines 35-38): raises `ValueError`
with the formatted expiry timestamp when `cert.not_valid_after` is strictly
before the current UTC time, and returns nothing otherwise. The clock
`datetime.datetime.utcnow()` is passed explicitly as `now`. -/
def check_cert_not_after (now : PyDateTime) (cert : Cert) : Except PyErr Unit :=
  if PyDateTime.lt cert.not_valid_after now then
    Except.error (PyErr.valueError
      ("Client certificate expired: Not After: " ++ strftimeNotAfter cert.not_valid_after))
  else Except.ok ()

/-- The triple returned by the external decoder
`pkcs12.load_key_and_certificates`: private key, leaf certificate, and the
chain of CA certificates in decoder order. -/
structure Decoded where
  privateKey : PrivateKey
  cert : Cert
  caCerts : List Cert
  deriving DecidableEq

/-- The private-key serialization mode chosen at source lines 49-60. -/
inductive EncryptionAlg where
  | noEncryption
  | bestAvailable (password : List Nat)
  deriving DecidableEq

/-- One PEM block written to the temporary file: either the serialized
private key (with its encryption mode) or a certificate's `public_bytes`.
PEM serialization is injective, so blocks are modelled symbolically. -/
inductive PemBlock where
  | privKeyBlock (k : PrivateKey) (alg : EncryptionAlg)
  | certBlock (c : Cert)
  deriving DecidableEq

/-- `cryptography...BestAvailableEncryption(password)`: the external crypto
primitive rejects an empty password at construction time; the repository's
selftest pins the rejection message as "Password must be 1 or more bytes."
(a `ValueError`). Any other password is accepted. -/
def bestAvailableEncryption (password : List Nat) : Except PyErr EncryptionAlg :=
  if password = [] then Except.error (PyErr.valueError "Password must be 1 or more bytes.")
  else Except.ok (EncryptionAlg.bestAvailable password)

/-- The encryption algorithm selected by the branch at source lines 49-60:
`BestAvailableEncryption` when a password is present (even empty),
`NoEncryption` when the password is `None`. -/
def encAlgOf (pkcs12_password_bytes : Option (List Nat)) : Except PyErr EncryptionAlg :=
  match pkcs12_password_bytes with
  | some p => bestAvailableEncryption p
  | none => Except.ok EncryptionAlg.noEncryption

/-- The chain-writing loop of source lines 64-68: for each CA certificate in
decoder order, first check expiry (aborting the loop on failure, keeping the
writes made so far), then append its PEM block to the file. `acc` is the
list of blocks already written. -/
def writeChain (now : PyDateTime) (cas : List Cert) (acc : List PemBlock) :
    Except PyErr Unit × List PemBlock :=
  match cas with
  | [] => (Except.ok (), acc)
  | c :: rest =>
    match check_cert_not_after now c with
    | Except.error e => (Except.error e, acc)
    | Except.ok _ => writeChain now rest (acc ++ [PemBlock.certBlock c])

/-- The TLS protocol profile: `ssl.PROTOCOL_TLS_CLIENT` preferred, with
`ssl.PROTOCOL_SSLv23` as the import-time platform fallback (source
lines 30-33). -/
inductive SslProtocol where
  | protocolTlsClient
  | protocolSslv23
  deriving DecidableEq

/-- The platform default protocol profile on a platform whose `ssl` module
exports `PROTOCOL_TLS_CLIENT`. -/
def default_ssl_protocol : SslProtocol := SslProtocol.protocolTlsClient

/-- An `ssl.SSLContext`: the chosen protocol, the key/chain material loaded
by `load_cert_chain` (with the password handed to it), and the mutable
`check_hostname` flag, which starts at the platform default `True`. -/
structure SSLContext where
  protocol : SslProtocol
  loaded_chain : Option (List PemBlock × Option (List Nat))
  check_hostname : Bool
  deriving DecidableEq

deriving instance DecidableEq for Except

/-- The observable outcome of one `create_sslcontext` call: its return value
or raised exception, the PEM blocks written to the temporary file in order,
whether the temporary file was ever created, and whether it still exists on
disk after the call (a failed `os.remove` is modelled as leaving the file in
place, the worst case). -/
structure BuildOutcome where
  result : Except PyErr SSLContext
  writes : List PemBlock
  tempCreated : Bool
  tempExistsAfter : Bool
  deriving DecidableEq

/-- `create_sslcontext(pkcs12_data, pkcs12_password_bytes, ssl_protocol)`
(source lines 40-74). External steps are passed as parameters:
`decodeResult` is what `pkcs12.load_key_and_certificates` returns for the
given bytes and password, `loadResult` is the outcome of
`ssl_context.load_cert_chain`, and `removeResult` is the outcome of the
`os.remove` in the `finally` block. The Python control flow is: decode;
check the leaf's expiry; create the context; open a named temporary file;
inside `try`, serialize the private key (encrypted iff the password is not
`None`), write it, write the leaf's PEM, then run the chain loop, flush,
close, and load the chain; in `finally`, remove the file — a `finally` that
raises replaces any in-flight exception. -/
def create_sslcontext (decodeResult : Except PyErr Decoded)
    (pkcs12_password_bytes : Option (List Nat))
    (loadResult : Except PyErr Unit) (removeResult : Except PyErr Unit)
    (now : PyDateTime) (ssl_protocol : SslProtocol) : BuildOutcome :=
  match decodeResult with
  | Except.error e => ⟨Except.error e, [], false, false⟩
  | Except.ok d =>
    match check_cert_not_after now d.cert with
    | Except.error e => ⟨Except.error e, [], false, false⟩
    | Except.ok _ =>
      let body : Except PyErr SSLContext × List PemBlock :=
        match encAlgOf pkcs12_password_bytes with
        | Except.error e => (Except.error e, [])
        | Except.ok alg =>
          let ws0 := [PemBlock.privKeyBlock d.privateKey alg, PemBlock.certBlock d.cert]
          match writeChain now d.caCerts ws0 with
          | (Except.error e, ws) => (Except.error e, ws)
          | (Except.ok _, ws) =>
            match loadResult with
            | Except.error e => (Except.error e, ws)
            | Except.ok _ =>
              (Except.ok ⟨ssl_protocol, some (ws, pkcs12_password_bytes), true⟩, ws)
      match removeResult with
      | Except.ok _ => ⟨body.1, body.2, true, false⟩
      | Except.error e => ⟨Except.error e, body.2, true, true⟩

/-- Parse a list of PEM blocks that are all certificates, in order. -/
def pemCerts : List PemBlock → Option (List Cert)
  | [] => some []
  | PemBlock.certBlock c :: rest => (pemCerts rest).map (fun cs => c :: cs)
  | _ => none

/-- Decoder for the materialized PEM sequence, following the specification's
words: the sequence is a private-key block, then the leaf certificate, then
the chain certificates in order; decoding recovers the (key, leaf, chain)
triple. -/
def decodePemSequence : List PemBlock → Option (PrivateKey × Cert × List Cert)
  | PemBlock.privKeyBlock k _ :: PemBlock.certBlock c :: rest =>
    (pemCerts rest).map (fun cs => (k, c, cs))
  | _ => none

/-- A Python value passed as `pkcs12_password`: `None`, `bytes`, `str`, or
any other object (the case the type check rejects). -/
inductive Password where
  | pyNone
  | pyBytes (b : List Nat)
  | pyStr (s : String)
  | pyOther
  deriving DecidableEq

/-- UTF-8 encoding of a text password, as `str.encode('utf8')`. -/
def encodeUtf8 (s : String) : List Nat :=
  s.toUTF8.toList.map (fun b => b.toNat)

/-- The password normalization of source lines 90-97: `None` stays absent,
`bytes` pass through, `str` is UTF-8 encoded, and anything else raises
`TypeError`. -/
def passwordToBytes : Password → Except PyErr (Option (List Nat))
  | Password.pyNone => Except.ok none
  | Password.pyBytes b => Except.ok (some b)
  | Password.pyStr s => Except.ok (some (encodeUtf8 s))
  | Password.pyOther => Except.error (PyErr.typeError "Password must be a None, string or bytes.")

/-- A constructed transport adapter: it owns exactly one TLS context. -/
structure Pkcs12Adapter where
  ssl_context : SSLContext
  deriving DecidableEq

/-- `Pkcs12Adapter.__init__` (source lines 78-100). `readFile` is the
filesystem's answer when a `pkcs12_filename` is opened and read; `decode`
is the external PKCS#12 decoder's answer for given data and password bytes;
`loadResult` and `removeResult` parameterize `create_sslcontext` as above.
The source's order of checks: missing sources, conflicting sources, file
read, password normalization, then context construction. -/
def Pkcs12Adapter.init (pkcs12_data : Option (List Nat)) (pkcs12_filename : Option String)
    (pkcs12_password : Password)
    (readFile : String → Except PyErr (List Nat))
    (decode : List Nat → Option (List Nat) → Except PyErr Decoded)
    (loadResult : Except PyErr Unit) (removeResult : Except PyErr Unit)
    (now : PyDateTime) (ssl_protocol : SslProtocol) : Except PyErr Pkcs12Adapter :=
  if pkcs12_data = none ∧ pkcs12_filename = none then
    Except.error (PyErr.valueError "Both arguments \"pkcs12_data\" and \"pkcs12_filename\" are missing")
  else if pkcs12_data ≠ none ∧ pkcs12_filename ≠ none then
    Except.error (PyErr.valueError "Argument \"pkcs12_data\" conflicts with \"pkcs12_filename\"")
  else
    let dataE : Except PyErr (List Nat) :=
      match pkcs12_filename with
      | some f => readFile f
      | none => Except.ok (pkcs12_data.getD [])
    match dataE with
    | Except.error e => Except.error e
    | Except.ok data =>
      match passwordToBytes pkcs12_password with
      | Except.error e => Except.error e
      | Except.ok pw =>
        match (create_sslcontext (decode data pw) pw loadResult removeResult now ssl_protocol).result with
        | Except.error e => Except.error e
        | Except.ok ctx => Except.ok ⟨ctx⟩

/-- A Python value passed as the per-request `verify` argument: a boolean,
`None`, an integer, or a string (for example a CA-bundle path). The source
tests it with `verify is False`, which in Python is identity with the
singleton `False` — true for no other value, not even `0` or `""`. -/
inductive Verify where
  | pyBool (b : Bool)
  | pyNone
  | pyInt (n : Int)
  | pyStr (s : String)
  deriving DecidableEq

/-- The value the context's `check_hostname` flag holds while the wrapped
operation runs: set to `False` exactly when `verify is False`, left at the
entry value otherwise (source lines 115-116 and 124-125). -/
def flagDuring (verify : Verify) (check_hostname : Bool) : Bool :=
  if verify = Verify.pyBool false then false else check_hostname

/-- `Pkcs12Adapter.cert_verify` (source lines 112-119), restricted to the
`check_hostname` state it manipulates: capture the flag, conditionally
disable it, run the wrapped superclass operation `inner` (which receives
the flag and may return normally or raise), and in `finally` restore the
captured value. The call's outcome is `inner`'s outcome; the flag after
the call is the second component. -/
def cert_verify (verify : Verify) (inner : Bool → Except PyErr Unit × Bool)
    (check_hostname : Bool) : Except PyErr Unit × Bool :=
  ((inner (flagDuring verify check_hostname)).1, check_hostname)

/-- `Pkcs12Adapter.send` (source lines 121-128): the same guard discipline
as `cert_verify`, wrapped around the superclass send. -/
def send (verify : Verify) (inner : Bool → Except PyErr Unit × Bool)
    (check_hostname : Bool) : Except PyErr Unit × Bool :=
  ((inner (flagDuring verify check_hostname)).1, check_hostname)

/-- The observable outcome of the module-level `request` wrapper: delegate
to plain `requests.request` with no client certificate, or proceed with a
freshly constructed adapter mounted on the session, or raise. -/
inductive RequestOutcome where
  | plainRequest
  | adapterMounted (a : Pkcs12Adapter)
  | raised (e : PyErr)
  deriving DecidableEq

/-- The module-level `request` wrapper (source lines 130-147): it delegates
to plain `requests.request` only when `pkcs12_data`, `pkcs12_filename` and
`pkcs12_password` are all `None`; otherwise it rejects an explicit `cert`
keyword (`certKwarg`) and constructs a `Pkcs12Adapter`, mounting it for
the `https://` prefix. -/
def request (pkcs12_data : Option (List Nat)) (pkcs12_filename : Option String)
    (pkcs12_password : Password) (certKwarg : Bool)
    (readFile : String → Except PyErr (List Nat))
    (decode : List Nat → Option (List Nat) → Except PyErr Decoded)
    (loadResult : Except PyErr Unit) (removeResult : Except PyErr Unit)
    (now : PyDateTime) (ssl_protocol : SslProtocol) : RequestOutcome :=
  if pkcs12_data = none ∧ pkcs12_filename = none ∧ pkcs12_password = Password.pyNone then
    RequestOutcome.plainRequest
  else if certKwarg then
    RequestOutcome.raised (PyErr.valueError "Argument \"cert\" conflicts with \"pkcs12_*\" arguments")
  else
    match Pkcs12Adapter.init pkcs12_data pkcs12_filename pkcs12_password readFile decode
        loadResult removeResult now ssl_protocol with
    | Except.error e => RequestOutcome.raised e
    | Except.ok a => RequestOutcome.adapterMounted a

/-- A clock value used by concrete instances. -/
def dt2020 : PyDateTime := ⟨2020, 1, 1, 0, 0, 0⟩

/-- A `not_valid_after` in the future of `dt2020`. -/
def dt2030 : PyDateTime := ⟨2030, 1, 1, 0, 0, 0⟩

/-- A `not_valid_after` in the past of `dt2020`. -/
def dt2010 : PyDateTime := ⟨2010, 6, 15, 12, 30, 45⟩

/-- A leaf certificate valid at `dt2020`. -/
def leafCert : Cert := ⟨1, dt2030⟩

/-- A certificate already expired at `dt2020`. -/
def expiredCert : Cert := ⟨2, dt2010⟩

/-- A concrete private-key handle. -/
def sampleKey : PrivateKey := ⟨7⟩

/-- A decoded bundle whose chain's only certificate is expired, while the
leaf is valid. -/
def decodedWithExpiredChain : Decoded := ⟨sampleKey, leafCert, [expiredCert]⟩

/-- A decoded bundle with a valid leaf and an empty chain. -/
def decodedSimple : Decoded := ⟨sampleKey, leafCert, []⟩

/-- A decoded bundle with the leaf repeated three times in the chain, as in
the repository's selftest (`cas=[cert, cert, cert]`). -/
def decodedDupChain : Decoded := ⟨sampleKey, leafCert, [leafCert, leafCert, leafCert]⟩

/-- A trivial decoder used by concrete instances: every byte string decodes
to `decodedSimple`. -/
def decodeConst : List Nat → Option (List Nat) → Except PyErr Decoded :=
  fun _ _ => Except.ok decodedSimple

/-- A wrapped inner operation that raises, used by concrete instances. -/
def guardInnerRaise : Bool → Except PyErr Unit × Bool :=
  fun b => (Except.error (PyErr.sslError "handshake failed"), b)

/-- A wrapped inner operation that returns normally and leaves the flag as
it received it, used by concrete instances. -/
def guardInnerOk : Bool → Except PyErr Unit × Bool :=
  fun b => (Except.ok (), b)

/-- A filesystem stub for concrete instances: every file reads as empty. -/
def readFileEmpty : String → Except PyErr (List Nat) :=
  fun _ => Except.ok []

theorem PyDateTime.lt_irrefl (a : PyDateTime) : PyDateTime.lt a a = false := by
  simp [PyDateTime.lt]

theorem PyDateTime.lt_asymm (a b : PyDateTime) (h : PyDateTime.lt a b = true) :
    PyDateTime.lt b a = false := by
  rcases a with ⟨y1, mo1, d1, h1, mi1, s1⟩
  rcases b with ⟨y2, mo2, d2, h2, mi2, s2⟩
  simp only [PyDateTime.lt, decide_eq_true_eq, decide_eq_false_iff_not] at h ⊢
  omega

theorem writeChain_acc (now : PyDateTime) (cas : List Cert) :
    ∀ acc : List PemBlock, ∃ t, (writeChain now cas acc).2 = acc ++ t := by
  induction cas with
  | nil => intro acc; exact ⟨[], by simp [writeChain]⟩
  | cons c rest ih =>
    intro acc
    cases hc : check_cert_not_after now c with
    | error e => exact ⟨[], by simp [writeChain, hc]⟩
    | ok u =>
      obtain ⟨t, ht⟩ := ih (acc ++ [PemBlock.certBlock c])
      exact ⟨PemBlock.certBlock c :: t, by simp [writeChain, hc, ht]⟩

theorem writeChain_all_ok (now : PyDateTime) (cas : List Cert) :
    (∀ c ∈ cas, check_cert_not_after now c = Except.ok ()) →
    ∀ acc, writeChain now cas acc = (Except.ok (), acc ++ cas.map PemBlock.certBlock) := by
  induction cas with
  | nil => intro _ acc; simp [writeChain]
  | cons c rest ih =>
    intro h acc
    have hc : check_cert_not_after now c = Except.ok () := h c (List.mem_cons_self c rest)
    have ih2 := ih (fun x hx => h x (List.mem_cons_of_mem c hx)) (acc ++ [PemBlock.certBlock c])
    simp [writeChain, hc, ih2]

theorem writeChain_first_err (now : PyDateTime) (c : Cert) (rest : List Cert) (e : PyErr)
    (hc : check_cert_not_after now c = Except.error e) (good : List Cert) :
    (∀ g ∈ good, check_cert_not_after now g = Except.ok ()) →
    ∀ acc, writeChain now (good ++ c :: rest) acc =
      (Except.error e, acc ++ good.map PemBlock.certBlock) := by
  induction good with
  | nil => intro _ acc; simp [writeChain, hc]
  | cons g gs ih =>
    intro hg acc
    have hgg : check_cert_not_after now g = Except.ok () := hg g (List.mem_cons_self g gs)
    have ih2 := ih (fun x hx => hg x (List.mem_cons_of_mem g hx)) (acc ++ [PemBlock.certBlock g])
    simp [writeChain, hgg, ih2]

theorem pemCerts_map (l : List Cert) : pemCerts (l.map PemBlock.certBlock) = some l := by
  induction l with
  | nil => simp [pemCerts]
  | cons c cs ih => simp [pemCerts, ih]

theorem create_writes_eq (d : Decoded) (pw : Option (List Nat)) (alg : EncryptionAlg)
    (loadResult removeResult : Except PyErr Unit) (now : PyDateTime) (proto : SslProtocol)
    (hleaf : check_cert_not_after now d.cert = Except.ok ())
    (halg : encAlgOf pw = Except.ok alg) :
    (create_sslcontext (Except.ok d) pw loadResult removeResult now proto).writes =
      (writeChain now d.caCerts
        [PemBlock.privKeyBlock d.privateKey alg, PemBlock.certBlock d.cert]).2 := by
  unfold create_sslcontext
  simp only [hleaf, halg]
  rcases hwc : writeChain now d.caCerts
      [PemBlock.privKeyBlock d.privateKey alg, PemBlock.certBlock d.cert] with ⟨r, ws⟩
  cases r with
  | error e => cases removeResult <;> simp
  | ok u => cases loadResult <;> cases removeResult <;> simp

/-- C5: `check_cert_not_after` raises the expired-certificate `ValueError`
carrying the formatted expiry timestamp (UTC, second precision) if and only
if the certificate's `not_valid_after` is strictly earlier than the current
UTC time; when `not_valid_after` is at or after the current time it returns
successfully. It is a pure function of certificate and clock, with no other
effect. -/
theorem check_cert_not_after_spec (now : PyDateTime) (cert : Cert) :
    (check_cert_not_after now cert =
        Except.error (PyErr.valueError
          ("Client certificate expired: Not After: " ++ strftimeNotAfter cert.not_valid_after)) ↔
      PyDateTime.lt cert.not_valid_after now = true) ∧
    (check_cert_not_after now cert = Except.ok () ↔
      PyDateTime.lt cert.not_valid_after now = false) ∧
    ((PyDateTime.lt now cert.not_valid_after = true ∨ now = cert.not_valid_after) →
      check_cert_not_after now cert = Except.ok ()) := by
  cases hlt : PyDateTime.lt cert.not_valid_after now with
  | false =>
    refine ⟨?_, ?_, ?_⟩ <;> simp [check_cert_not_after, hlt]
  | true =>
    refine ⟨?_, ?_, ?_⟩
    · simp [check_cert_not_after, hlt]
    · simp [check_cert_not_after, hlt]
    · rintro (h | h)
      · rw [PyDateTime.lt_asymm now cert.not_valid_after h] at hlt
        cases hlt
      · rw [h, PyDateTime.lt_irrefl] at hlt
        cases hlt

theorem check_cert_not_after_spec_witness :
    check_cert_not_after dt2020 expiredCert =
      Except.error (PyErr.valueError
        ("Client certificate expired: Not After: " ++ strftimeNotAfter dt2010)) ∧
    check_cert_not_after dt2020 leafCert = Except.ok () := by
  have h1 := (check_cert_not_after_spec dt2020 expiredCert).1
  have h2 := (check_cert_not_after_spec dt2020 leafCert).2.2
  exact ⟨h1.mpr (by decide), h2 (Or.inl (by decide))⟩

/-- C1: for every call to the adapter's `cert_verify` and every call to its
`send`, whether the wrapped operation returns normally or raises, the
context's `check_hostname` flag after the call equals the value captured
immediately before the call; and the flag is disabled during the call only
when the caller requested verification disabled (or it was already
disabled). -/
theorem verification_guard_restores (v : Verify) (inner : Bool → Except PyErr Unit × Bool)
    (s : Bool) :
    (cert_verify v inner s).2 = s ∧ (send v inner s).2 = s ∧
    (flagDuring v s = false → s = true → v = Verify.pyBool false) := by
  refine ⟨rfl, rfl, ?_⟩
  intro hf hs
  by_contra hv
  rw [flagDuring, if_neg hv, hs] at hf
  cases hf

theorem verification_guard_restores_witness :
    (cert_verify (Verify.pyBool false) guardInnerRaise true).2 = true ∧
    (send (Verify.pyBool false) guardInnerRaise true).2 = true ∧
    Verify.pyBool false = Verify.pyBool false := by
  have h := verification_guard_restores (Verify.pyBool false) guardInnerRaise true
  exact ⟨h.1, h.2.1, h.2.2 (by decide) rfl⟩

/-- C9: in `cert_verify` and `send`, the hostname-verification flag is set
to disabled only when the per-request `verify` argument is identically the
boolean `False`; for every other value — `None`, `0`, the empty string, or
a truthy CA-bundle path — the flag holds its entry value during the whole
call and after it. -/
theorem verify_non_false_leaves_flag (v : Verify) (hv : v ≠ Verify.pyBool false)
    (inner : Bool → Except PyErr Unit × Bool) (s : Bool) :
    flagDuring v s = s ∧ (cert_verify v inner s).2 = s ∧ (send v inner s).2 = s :=
  ⟨by rw [flagDuring, if_neg hv], rfl, rfl⟩

theorem verify_non_false_leaves_flag_witness :
    (flagDuring Verify.pyNone true = true ∧
      (cert_verify Verify.pyNone guardInnerOk true).2 = true ∧
      (send Verify.pyNone guardInnerOk true).2 = true) ∧
    (flagDuring (Verify.pyInt 0) true = true ∧
      (cert_verify (Verify.pyInt 0) guardInnerOk true).2 = true ∧
      (send (Verify.pyInt 0) guardInnerOk true).2 = true) ∧
    (flagDuring (Verify.pyStr "/etc/ssl/ca.pem") true = true ∧
      (cert_verify (Verify.pyStr "/etc/ssl/ca.pem") guardInnerOk true).2 = true ∧
      (send (Verify.pyStr "/etc/ssl/ca.pem") guardInnerOk true).2 = true) :=
  ⟨verify_non_false_leaves_flag Verify.pyNone (by decide) guardInnerOk true,
   verify_non_false_leaves_flag (Verify.pyInt 0) (by decide) guardInnerOk true,
   verify_non_false_leaves_flag (Verify.pyStr "/etc/ssl/ca.pem") (by decide) guardInnerOk true⟩

/-- C3: on every exit path of `create_sslcontext` — success, decode
failure, expiry failure of the leaf or of a chain certificate, rejection of
the encryption password, or TLS-chain-load failure, including every path on
which an exception is in flight — the temporary file does not exist after
the call returns, provided the `os.remove` of the cleanup step itself
succeeds. On paths that fail before the file is created, it never exists at
all. -/
theorem temp_file_removed_on_every_path (decodeResult : Except PyErr Decoded)
    (pw : Option (List Nat)) (loadResult : Except PyErr Unit)
    (now : PyDateTime) (proto : SslProtocol) :
    (create_sslcontext decodeResult pw loadResult (Except.ok ()) now proto).tempExistsAfter =
      false := by
  unfold create_sslcontext
  cases decodeResult with
  | error e => rfl
  | ok d =>
    cases hc : check_cert_not_after now d.cert with
    | error e => simp [hc]
    | ok u => simp [hc]

/-- C2 fails on the code: with a valid leaf certificate and an expired
chain certificate, `create_sslcontext` creates the temporary file and
writes the private-key block and the leaf-certificate block to it before
the chain certificate's expiry check raises, so a chain expiry failure does
not abort before file I/O and bytes are written on this expiry-failure
path. -/
theorem chain_expiry_after_io_counterexample :
    (create_sslcontext (Except.ok decodedWithExpiredChain) none (Except.ok ()) (Except.ok ())
        dt2020 SslProtocol.protocolTlsClient).result =
      Except.error (PyErr.valueError
        ("Client certificate expired: Not After: " ++ strftimeNotAfter dt2010)) ∧
    (create_sslcontext (Except.ok decodedWithExpiredChain) none (Except.ok ()) (Except.ok ())
        dt2020 SslProtocol.protocolTlsClient).writes =
      [PemBlock.privKeyBlock sampleKey EncryptionAlg.noEncryption,
        PemBlock.certBlock leafCert] ∧
    (create_sslcontext (Except.ok decodedWithExpiredChain) none (Except.ok ()) (Except.ok ())
        dt2020 SslProtocol.protocolTlsClient).tempCreated = true :=
  ⟨rfl, rfl, rfl⟩

/-- C2 amended: an expiry failure of the leaf certificate aborts before the
temporary file is created and before any bytes are written; each chain
certificate, however, is validated immediately before its own block is
written, so an expiry failure of a chain certificate aborts the operation
only after the private-key block, the leaf block, and the blocks of the
earlier (non-expired) chain certificates have been written to the temporary
file. -/
theorem expiry_abort_points (d : Decoded) (pw : Option (List Nat))
    (loadResult : Except PyErr Unit) (now : PyDateTime) (proto : SslProtocol) :
    (∀ e, check_cert_not_after now d.cert = Except.error e →
      create_sslcontext (Except.ok d) pw loadResult (Except.ok ()) now proto =
        ⟨Except.error e, [], false, false⟩) ∧
    (∀ alg good c rest e, encAlgOf pw = Except.ok alg →
      check_cert_not_after now d.cert = Except.ok () →
      d.caCerts = good ++ c :: rest →
      (∀ g ∈ good, check_cert_not_after now g = Except.ok ()) →
      check_cert_not_after now c = Except.error e →
      (create_sslcontext (Except.ok d) pw loadResult (Except.ok ()) now proto).result =
        Except.error e ∧
      (create_sslcontext (Except.ok d) pw loadResult (Except.ok ()) now proto).writes =
        PemBlock.privKeyBlock d.privateKey alg :: PemBlock.certBlock d.cert ::
          good.map PemBlock.certBlock) := by
  constructor
  · intro e he
    unfold create_sslcontext
    simp only [he]
  · intro alg good c rest e halg hleaf hchain hg hc
    have hw := writeChain_first_err now c rest e hc good hg
      [PemBlock.privKeyBlock d.privateKey alg, PemBlock.certBlock d.cert]
    unfold create_sslcontext
    simp only [hleaf, halg, hchain, hw]
    simp

theorem expiry_abort_points_witness :
    (create_sslcontext (Except.ok decodedWithExpiredChain) none (Except.ok ()) (Except.ok ())
        dt2020 default_ssl_protocol).result =
      Except.error (PyErr.valueError
        ("Client certificate expired: Not After: " ++
          strftimeNotAfter expiredCert.not_valid_after)) ∧
    (create_sslcontext (Except.ok decodedWithExpiredChain) none (Except.ok ()) (Except.ok ())
        dt2020 default_ssl_protocol).writes =
      PemBlock.privKeyBlock decodedWithExpiredChain.privateKey EncryptionAlg.noEncryption ::
        PemBlock.certBlock decodedWithExpiredChain.cert ::
        List.map PemBlock.certBlock [] :=
  (expiry_abort_points decodedWithExpiredChain none (Except.ok ()) dt2020
      default_ssl_protocol).2 EncryptionAlg.noEncryption [] expiredCert []
    (PyErr.valueError
      ("Client certificate expired: Not After: " ++ strftimeNotAfter expiredCert.not_valid_after))
    rfl rfl rfl (by simp) rfl

/-- C4 fails on the code: when the TLS chain load raises and the
`finally`-block `os.remove` then also fails, the remove failure propagates
to the caller in place of the original TLS error, so a cleanup failure does
prevent the original underlying error from propagating. -/
theorem cleanup_failure_masks_counterexample :
    (create_sslcontext (Except.ok decodedSimple) none (Except.error (PyErr.sslError "bad chain"))
        (Except.error (PyErr.osError "No such file or directory")) dt2020
        SslProtocol.protocolTlsClient).result =
      Except.error (PyErr.osError "No such file or directory") ∧
    (create_sslcontext (Except.ok decodedSimple) none (Except.error (PyErr.sslError "bad chain"))
        (Except.error (PyErr.osError "No such file or directory")) dt2020
        SslProtocol.protocolTlsClient).result ≠
      Except.error (PyErr.sslError "bad chain") :=
  ⟨rfl, by decide⟩

/-- C4 amended: a failing temporary-file deletion in the cleanup step is
not converted into a credential error — the raised error is the OS error
itself, propagated unchanged — but it replaces any original in-flight error
of the build, which therefore does not reach the caller as the propagating
exception (it survives only as the replacement exception's implicit
context). -/
theorem cleanup_failure_propagates_os_error (decodeResult : Except PyErr Decoded) (d : Decoded)
    (pw : Option (List Nat)) (loadResult : Except PyErr Unit) (now : PyDateTime)
    (proto : SslProtocol) (e : PyErr)
    (hd : decodeResult = Except.ok d)
    (hleaf : check_cert_not_after now d.cert = Except.ok ()) :
    (create_sslcontext decodeResult pw loadResult (Except.error e) now proto).result =
      Except.error e ∧
    (create_sslcontext decodeResult pw loadResult (Except.error e) now proto).tempCreated =
      true := by
  subst hd
  unfold create_sslcontext
  simp only [hleaf]
  simp

theorem cleanup_failure_propagates_os_error_witness :
    (create_sslcontext (Except.ok decodedSimple) none (Except.ok ())
        (Except.error (PyErr.osError "Permission denied")) dt2020
        SslProtocol.protocolTlsClient).result =
      Except.error (PyErr.osError "Permission denied") ∧
    (create_sslcontext (Except.ok decodedSimple) none (Except.ok ())
        (Except.error (PyErr.osError "Permission denied")) dt2020
        SslProtocol.protocolTlsClient).tempCreated = true :=
  cleanup_failure_propagates_os_error (Except.ok decodedSimple) decodedSimple none
    (Except.ok ()) dt2020 SslProtocol.protocolTlsClient (PyErr.osError "Permission denied")
    rfl rfl

/-- C7: in `create_sslcontext`, when a password is present — including an
explicitly empty byte string — the private-key PEM block is encrypted with
`BestAvailableEncryption` of that password, and the primitive's rejection
of the empty password propagates unchanged (with nothing yet written to the
temporary file); when the password is `None`, the private-key block is
emitted with `NoEncryption` and no encryption is performed. -/
theorem password_encryption_behaviour (d : Decoded) (pw : Option (List Nat))
    (loadResult : Except PyErr Unit) (now : PyDateTime) (proto : SslProtocol)
    (hleaf : check_cert_not_after now d.cert = Except.ok ()) :
    (pw = some [] →
      (create_sslcontext (Except.ok d) pw loadResult (Except.ok ()) now proto).result =
        Except.error (PyErr.valueError "Password must be 1 or more bytes.") ∧
      (create_sslcontext (Except.ok d) pw loadResult (Except.ok ()) now proto).writes = []) ∧
    (∀ p, pw = some p → p ≠ [] →
      ∃ tl, (create_sslcontext (Except.ok d) pw loadResult (Except.ok ()) now proto).writes =
        PemBlock.privKeyBlock d.privateKey (EncryptionAlg.bestAvailable p) :: tl) ∧
    (pw = none →
      ∃ tl, (create_sslcontext (Except.ok d) pw loadResult (Except.ok ()) now proto).writes =
        PemBlock.privKeyBlock d.privateKey EncryptionAlg.noEncryption :: tl) := by
  refine ⟨?_, ?_, ?_⟩
  · rintro rfl
    unfold create_sslcontext
    simp only [hleaf]
    exact ⟨rfl, rfl⟩
  · rintro p rfl hp
    have halg : encAlgOf (some p) = Except.ok (EncryptionAlg.bestAvailable p) := by
      simp [encAlgOf, bestAvailableEncryption, hp]
    obtain ⟨t, ht⟩ := writeChain_acc now d.caCerts
      [PemBlock.privKeyBlock d.privateKey (EncryptionAlg.bestAvailable p),
        PemBlock.certBlock d.cert]
    refine ⟨PemBlock.certBlock d.cert :: t, ?_⟩
    rw [create_writes_eq d (some p) (EncryptionAlg.bestAvailable p) loadResult (Except.ok ())
      now proto hleaf halg, ht]
    simp
  · rintro rfl
    obtain ⟨t, ht⟩ := writeChain_acc now d.caCerts
      [PemBlock.privKeyBlock d.privateKey EncryptionAlg.noEncryption,
        PemBlock.certBlock d.cert]
    refine ⟨PemBlock.certBlock d.cert :: t, ?_⟩
    rw [create_writes_eq d none EncryptionAlg.noEncryption loadResult (Except.ok ())
      now proto hleaf rfl, ht]
    simp

theorem password_encryption_behaviour_witness :
    ((create_sslcontext (Except.ok decodedSimple) (some []) (Except.ok ()) (Except.ok ())
        dt2020 default_ssl_protocol).result =
      Except.error (PyErr.valueError "Password must be 1 or more bytes.") ∧
     (create_sslcontext (Except.ok decodedSimple) (some []) (Except.ok ()) (Except.ok ())
        dt2020 default_ssl_protocol).writes = []) ∧
    (∃ tl, (create_sslcontext (Except.ok decodedSimple) (some [97, 98]) (Except.ok ())
        (Except.ok ()) dt2020 default_ssl_protocol).writes =
      PemBlock.privKeyBlock decodedSimple.privateKey
        (EncryptionAlg.bestAvailable [97, 98]) :: tl) ∧
    (∃ tl, (create_sslcontext (Except.ok decodedSimple) none (Except.ok ()) (Except.ok ())
        dt2020 default_ssl_protocol).writes =
      PemBlock.privKeyBlock decodedSimple.privateKey EncryptionAlg.noEncryption :: tl) := by
  refine ⟨?_, ?_, ?_⟩
  · exact (password_encryption_behaviour decodedSimple (some []) (Except.ok ()) dt2020
      default_ssl_protocol rfl).1 rfl
  · exact (password_encryption_behaviour decodedSimple (some [97, 98]) (Except.ok ()) dt2020
      default_ssl_protocol rfl).2.1 [97, 98] rfl (by simp)
  · exact (password_encryption_behaviour decodedSimple none (Except.ok ()) dt2020
      default_ssl_protocol rfl).2.2 rfl

/-- C8: for every successfully decoded (key, leaf, chain) triple whose
certificates pass the expiry checks and whose password mode is accepted,
the PEM sequence materialized into the temporary file is exactly the
private-key block first, then the leaf-certificate block, then one block
per chain certificate in decoder order — no sorting, no de-duplication —
and decoding that sequence yields the same key, leaf, and chain,
order-preserving. -/
theorem pem_sequence_roundtrip (d : Decoded) (pw : Option (List Nat)) (alg : EncryptionAlg)
    (loadResult removeResult : Except PyErr Unit) (now : PyDateTime) (proto : SslProtocol)
    (hleaf : check_cert_not_after now d.cert = Except.ok ())
    (hchain : ∀ c ∈ d.caCerts, check_cert_not_after now c = Except.ok ())
    (halg : encAlgOf pw = Except.ok alg) :
    (create_sslcontext (Except.ok d) pw loadResult removeResult now proto).writes =
      PemBlock.privKeyBlock d.privateKey alg :: PemBlock.certBlock d.cert ::
        d.caCerts.map PemBlock.certBlock ∧
    decodePemSequence
        ((create_sslcontext (Except.ok d) pw loadResult removeResult now proto).writes) =
      some (d.privateKey, d.cert, d.caCerts) := by
  have hw := writeChain_all_ok now d.caCerts hchain
    [PemBlock.privKeyBlock d.privateKey alg, PemBlock.certBlock d.cert]
  have hwr := create_writes_eq d pw alg loadResult removeResult now proto hleaf halg
  rw [hw] at hwr
  rw [hwr]
  constructor
  · simp
  · simp [decodePemSequence, pemCerts_map]

theorem pem_sequence_roundtrip_witness :
    (create_sslcontext (Except.ok decodedDupChain) none (Except.ok ()) (Except.ok ()) dt2020
        default_ssl_protocol).writes =
      PemBlock.privKeyBlock decodedDupChain.privateKey EncryptionAlg.noEncryption ::
        PemBlock.certBlock decodedDupChain.cert ::
        decodedDupChain.caCerts.map PemBlock.certBlock ∧
    decodePemSequence
        ((create_sslcontext (Except.ok decodedDupChain) none (Except.ok ()) (Except.ok ())
          dt2020 default_ssl_protocol).writes) =
      some (decodedDupChain.privateKey, decodedDupChain.cert, decodedDupChain.caCerts) :=
  pem_sequence_roundtrip decodedDupChain none EncryptionAlg.noEncryption (Except.ok ())
    (Except.ok ()) dt2020 default_ssl_protocol rfl (by decide) rfl

/-- C6: adapter construction raises the conflict `ValueError` whenever both
the raw-bytes source and the filesystem-path source are supplied, and the
missing-source `ValueError` whenever neither is, regardless of their
contents; a password that is neither `None` nor bytes nor a string always
aborts construction, and does so with the configuration `TypeError`
whenever the credential-source configuration itself is acceptable (exactly
one source, and the file readable when the source is a path). In every such
case no adapter is constructed. -/
theorem adapter_init_config_errors (pkcs12_data : Option (List Nat))
    (pkcs12_filename : Option String) (pkcs12_password : Password)
    (readFile : String → Except PyErr (List Nat))
    (decode : List Nat → Option (List Nat) → Except PyErr Decoded)
    (loadResult removeResult : Except PyErr Unit) (now : PyDateTime) (proto : SslProtocol) :
    (pkcs12_data ≠ none → pkcs12_filename ≠ none →
      Pkcs12Adapter.init pkcs12_data pkcs12_filename pkcs12_password readFile decode
          loadResult removeResult now proto =
        Except.error
          (PyErr.valueError "Argument \"pkcs12_data\" conflicts with \"pkcs12_filename\"")) ∧
    (pkcs12_data = none → pkcs12_filename = none →
      Pkcs12Adapter.init pkcs12_data pkcs12_filename pkcs12_password readFile decode
          loadResult removeResult now proto =
        Except.error
          (PyErr.valueError
            "Both arguments \"pkcs12_data\" and \"pkcs12_filename\" are missing")) ∧
    (pkcs12_password = Password.pyOther →
      ∃ e, Pkcs12Adapter.init pkcs12_data pkcs12_filename pkcs12_password readFile decode
          loadResult removeResult now proto = Except.error e) ∧
    (pkcs12_password = Password.pyOther → pkcs12_filename = none → pkcs12_data ≠ none →
      Pkcs12Adapter.init pkcs12_data pkcs12_filename pkcs12_password readFile decode
          loadResult removeResult now proto =
        Except.error (PyErr.typeError "Password must be a None, string or bytes.")) ∧
    (pkcs12_password = Password.pyOther → pkcs12_data = none →
      ∀ f b, pkcs12_filename = some f → readFile f = Except.ok b →
      Pkcs12Adapter.init pkcs12_data pkcs12_filename pkcs12_password readFile decode
          loadResult removeResult now proto =
        Except.error (PyErr.typeError "Password must be a None, string or bytes.")) := by
  refine ⟨?_, ?_, ?_, ?_, ?_⟩
  · intro hd hf
    rcases pkcs12_data with _ | d
    · exact absurd rfl hd
    rcases pkcs12_filename with _ | f
    · exact absurd rfl hf
    simp [Pkcs12Adapter.init]
  · rintro rfl rfl
    simp [Pkcs12Adapter.init]
  · rintro rfl
    rcases pkcs12_data with _ | d <;> rcases pkcs12_filename with _ | f
    · exact ⟨PyErr.valueError
        "Both arguments \"pkcs12_data\" and \"pkcs12_filename\" are missing",
        by simp [Pkcs12Adapter.init]⟩
    · cases hrf : readFile f with
      | error e => exact ⟨e, by simp [Pkcs12Adapter.init, hrf]⟩
      | ok b => exact ⟨PyErr.typeError "Password must be a None, string or bytes.",
          by simp [Pkcs12Adapter.init, hrf, passwordToBytes]⟩
    · exact ⟨PyErr.typeError "Password must be a None, string or bytes.",
        by simp [Pkcs12Adapter.init, passwordToBytes]⟩
    · exact ⟨PyErr.valueError "Argument \"pkcs12_data\" conflicts with \"pkcs12_filename\"",
        by simp [Pkcs12Adapter.init]⟩
  · rintro rfl rfl hd
    rcases pkcs12_data with _ | d
    · exact absurd rfl hd
    simp [Pkcs12Adapter.init, passwordToBytes]
  · rintro rfl rfl f b hf hrf
    subst hf
    simp [Pkcs12Adapter.init, hrf, passwordToBytes]

theorem adapter_init_config_errors_witness :
    (Pkcs12Adapter.init (some [1]) (some "client.p12") Password.pyNone readFileEmpty decodeConst
        (Except.ok ()) (Except.ok ()) dt2020 default_ssl_protocol =
      Except.error
        (PyErr.valueError "Argument \"pkcs12_data\" conflicts with \"pkcs12_filename\"")) ∧
    (Pkcs12Adapter.init none none Password.pyNone readFileEmpty decodeConst
        (Except.ok ()) (Except.ok ()) dt2020 default_ssl_protocol =
      Except.error
        (PyErr.valueError "Both arguments \"pkcs12_data\" and \"pkcs12_filename\" are missing")) ∧
    (Pkcs12Adapter.init (some [1]) none Password.pyOther readFileEmpty decodeConst
        (Except.ok ()) (Except.ok ()) dt2020 default_ssl_protocol =
      Except.error (PyErr.typeError "Password must be a None, string or bytes.")) ∧
    (Pkcs12Adapter.init none (some "client.p12") Password.pyOther readFileEmpty decodeConst
        (Except.ok ()) (Except.ok ()) dt2020 default_ssl_protocol =
      Except.error (PyErr.typeError "Password must be a None, string or bytes.")) := by
  refine ⟨?_, ?_, ?_, ?_⟩
  · exact (adapter_init_config_errors (some [1]) (some "client.p12") Password.pyNone
      readFileEmpty decodeConst (Except.ok ()) (Except.ok ()) dt2020 default_ssl_protocol).1
      (by simp) (by simp)
  · exact (adapter_init_config_errors none none Password.pyNone
      readFileEmpty decodeConst (Except.ok ()) (Except.ok ()) dt2020 default_ssl_protocol).2.1
      rfl rfl
  · exact (adapter_init_config_errors (some [1]) none Password.pyOther
      readFileEmpty decodeConst (Except.ok ()) (Except.ok ()) dt2020
      default_ssl_protocol).2.2.2.1 rfl rfl (by simp)
  · exact (adapter_init_config_errors none (some "client.p12") Password.pyOther
      readFileEmpty decodeConst (Except.ok ()) (Except.ok ()) dt2020
      default_ssl_protocol).2.2.2.2 rfl rfl "client.p12" [] rfl rfl

/-- C10: the module-level `request` wrapper delegates to the plain,
certificate-less HTTP client exactly when `pkcs12_data`, `pkcs12_filename`
and `pkcs12_password` are all absent; a call supplying only a password does
not fall back — it constructs an adapter and raises the
missing-credential-source `ValueError`. -/
theorem request_no_plain_fallback (pkcs12_password : Password)
    (hp : pkcs12_password ≠ Password.pyNone)
    (readFile : String → Except PyErr (List Nat))
    (decode : List Nat → Option (List Nat) → Except PyErr Decoded)
    (loadResult removeResult : Except PyErr Unit) (now : PyDateTime) (proto : SslProtocol) :
    request none none pkcs12_password false readFile decode loadResult removeResult now proto =
      RequestOutcome.raised
        (PyErr.valueError
          "Both arguments \"pkcs12_data\" and \"pkcs12_filename\" are missing") ∧
    (∀ (d : Option (List Nat)) (f : Option String) (p : Password) (ck : Bool),
      request d f p ck readFile decode loadResult removeResult now proto =
          RequestOutcome.plainRequest ↔
        d = none ∧ f = none ∧ p = Password.pyNone) := by
  constructor
  · simp [request, hp, Pkcs12Adapter.init]
  · intro d f p ck
    constructor
    · intro h
      unfold request at h
      split at h
      · assumption
      · split at h
        · cases h
        · rcases hin : Pkcs12Adapter.init d f p readFile decode loadResult removeResult
              now proto with e | a <;> rw [hin] at h <;> cases h
    · rintro ⟨rfl, rfl, rfl⟩
      simp [request]

theorem request_no_plain_fallback_witness :
    (request none none (Password.pyBytes [1, 2]) false readFileEmpty decodeConst
        (Except.ok ()) (Except.ok ()) dt2020 default_ssl_protocol =
      RequestOutcome.raised
        (PyErr.valueError
          "Both arguments \"pkcs12_data\" and \"pkcs12_filename\" are missing")) ∧
    (request none none Password.pyNone false readFileEmpty decodeConst
        (Except.ok ()) (Except.ok ()) dt2020 default_ssl_protocol =
          RequestOutcome.plainRequest ↔
      (none : Option (List Nat)) = none ∧ (none : Option String) = none ∧
        Password.pyNone = Password.pyNone) := by
  have h := request_no_plain_fallback (Password.pyBytes [1, 2]) (by decide) readFileEmpty
    decodeConst (Except.ok ()) (Except.ok ()) dt2020 default_ssl_protocol
  exact ⟨h.1, h.2 none none Password.pyNone false⟩
